import Mathlib

/-!
Verification of the ABRoot upgrade-transaction core against its Go sources.

Shallow embedding conventions:
* Pure string computations (`getKernelVersion`, the grub template rendering,
  the containerfile body) are translated directly as Lean functions.
* External effects (syscalls, podman, mounts) are abstracted by an `Env`
  record of outcome oracles, one per call site; the state threaded through
  the driver is a `Sys` record holding the process-global cleanup queue and
  an append-only trace of the effects the code actually performed.
* `AtomicSwap` (core/atomic-io.go) is additionally given a concrete
  filesystem model (paths mapped to inodes tagged with a device) so that
  its exchange semantics and its syscall trace can be stated precisely.
-/

/-- Error values.  The Go code deals in opaque `error` values; the
constructors below name the distinguished errors the sources construct
(`noUpdate` for `errors.New("no update available")`, `noKernel` for
`errors.New("could not get kernel version")`) plus kinds from the spec's
error taxonomy (`descriptorMismatch`, which the Go code never constructs)
and `ioErr` for arbitrary errors returned by external calls. -/
inductive Err where
  | noUpdate
  | noKernel
  | notFound (p : String)
  | crossDevice
  | descriptorMismatch
  | ioErr (msg : String)
deriving DecidableEq, Repr

/-- An inode, tagged with the device (filesystem) it lives on.  Used by the
concrete model of `AtomicSwap`. -/
structure Inode where
  dev : Nat
  ino : Nat
deriving DecidableEq, Repr

/-- Syscall-level operations performed by `AtomicSwap`: opening a path and
the two flavours of rename.  `rename` (plain, non-exchanging) is never
emitted by the embedded code; it is present so that "never a userspace
two-step rename" is statable. -/
inductive SysOp where
  | openPath (p : String)
  | renameExchange (a b : String)
  | rename (a b : String)
deriving DecidableEq, Repr

/-- Find the inode reachable at path `p` in a filesystem given as an
association of paths to inodes (the model used for `AtomicSwap`). -/
def fsLookup (fs : List (String × Inode)) (p : String) : Option Inode :=
  match fs with
  | [] => none
  | (k, v) :: tl => if k = p then some v else fsLookup tl p

/-- Effect of a successful `renameat2(..., RENAME_EXCHANGE)`: the inodes
reachable at `a` and `b` are exchanged, every other path is untouched. -/
def fsExchange (fs : List (String × Inode)) (a b : String) (ia ib : Inode) :
    List (String × Inode) :=
  fs.map fun pi => (pi.1, if pi.1 = a then ib else if pi.1 = b then ia else pi.2)

/-- Embedding of `AtomicSwap` (src/core/atomic-io.go:26-48).
The Go function opens `src` (returning the error if that fails), opens
`dst` (likewise), then issues a single `unix.Renameat2(..., RENAME_EXCHANGE)`.
Opening a missing path fails (`notFound`); the exchange syscall fails with
`EXDEV` (`crossDevice`) when the two paths live on different devices.
Returns the result, the filesystem afterwards, and the list of syscalls
attempted. -/
def AtomicSwap (fs : List (String × Inode)) (src dst : String) :
    Except Err Unit × List (String × Inode) × List SysOp :=
  match fsLookup fs src with
  | none => (Except.error (Err.notFound src), fs, [SysOp.openPath src])
  | some ia =>
    match fsLookup fs dst with
    | none => (Except.error (Err.notFound dst), fs, [SysOp.openPath src, SysOp.openPath dst])
    | some ib =>
      if ia.dev = ib.dev then
        (Except.ok (), fsExchange fs src dst ia ib,
          [SysOp.openPath src, SysOp.openPath dst, SysOp.renameExchange src dst])
      else
        (Except.error Err.crossDevice, fs,
          [SysOp.openPath src, SysOp.openPath dst, SysOp.renameExchange src dst])

/-- Go string `<`: lexicographic comparison of the character sequences
(for the ASCII filenames involved this coincides with Go's byte-wise
comparison). -/
def charListLess : List Char → List Char → Bool
  | _, [] => false
  | [], _ :: _ => true
  | a :: as, b :: bs => if a < b then true else if b < a then false else charListLess as bs

/-- Embedding of `getKernelVersion` (src/unnamed/part_002:98-122) applied to
the list of basenames of the files matching the glob
`rootPath/boot/vmlinuz-*`.  The Go loop keeps the running maximum under
string comparison (`version > maxVersion`, i.e. `maxVersion < version`),
starting from the empty string, and returns `""` when no file matched. -/
def getKernelVersion (kernels : List String) : String :=
  kernels.foldl (fun maxVersion version =>
    if charListLess maxVersion.data version.data then version else maxVersion) ""

/-- Grub template (src/unnamed/part_002:19-68), first segment: everything up
to the `%s` that receives the menu entry name. -/
def grubTp0 : String :=
  "#!/bin/sh\n# ABRoot GRUB configuration file\n# This file is automatically generated by ABRoot\n# Do not edit this file manually\n\nexec tail -n +3 $0\n\nset menu_color_normal=white/black\nset menu_color_highlight=black/light-gray\n\nfunction gfxmode \x7b\n\tset gfxpayload=\"$\x7b1\x7d\"\n\tif [ \"$\x7b1\x7d\" = \"keep\" ]; then\n\t\t\t\t\tset vt_handoff=vt.handoff=7\n\telse\n\t\t\t\t\tset vt_handoff=\n\tfi\n\x7d\nif [ \"$\x7brecordfail\x7d\" != 1 ]; then\nif [ -e $\x7bprefix\x7d/gfxblacklist.txt ]; then\nif [ $\x7bgrub_platform\x7d != pc ]; then\n  set linux_gfx_mode=keep\nelif hwmatch $\x7bprefix\x7d/gfxblacklist.txt 3; then\n  if [ $\x7bmatch\x7d = 0 ]; then\n\tset linux_gfx_mode=keep\n  else\n\tset linux_gfx_mode=text\n  fi\nelse\n  set linux_gfx_mode=text\nfi\nelse\nset linux_gfx_mode=keep\nfi\nelse\nset linux_gfx_mode=text\nfi\nexport linux_gfx_mode\n\nmenuentry \x27"

/-- Grub template, second segment: between the entry-name `%s` and the
`%s` that receives the root UUID of the `search` line. -/
def grubTp1 : String :=
  "\x27 --class gnu-linux --class gnu --class os \x7b\n\trecordfail\n\tload_video\n\tgfxmode $linux_gfx_mode\n\tinsmod gzio\n\tif [ x$grub_platform = xxen ]; then insmod xzio; insmod lzopio; fi\n\tinsmod part_gpt\n\tinsmod ext2\n\tsearch --no-floppy --fs-uuid --set=root "

/-- Grub template, third segment: between the `search` UUID and the kernel
version of the `linux` line. -/
def grubTp2 : String := "\n\tlinux   /.system/boot/vmlinuz-"

/-- Grub template, fourth segment: between the kernel version and the UUID
of the kernel command line. -/
def grubTp3 : String := " root=UUID="

/-- Grub template, fifth segment: the rest of the kernel command line and
the `initrd` line up to its version (the template ends right after the
final `%s`). -/
def grubTp4 : String := " quiet splash bgrt_disable $vt_handoff\n\tinitrd  /.system/boot/initrd.img-"

/-- `fmt.Sprintf(template, entryName, rootUuid, kernelVersion, rootUuid,
kernelVersion)` from src/unnamed/part_002:86: the template with its five
`%s` verbs substituted in order. -/
def renderGrub (entryName rootUuid kernelVersion : String) : String :=
  grubTp0 ++ entryName ++ grubTp1 ++ rootUuid ++ grubTp2 ++ kernelVersion ++
    grubTp3 ++ rootUuid ++ grubTp4 ++ kernelVersion

/-- The file written by `generateGrubRecipe`: its path and its content. -/
structure GrubRecipe where
  path : String
  content : String
deriving DecidableEq, Repr

/-- Embedding of `generateGrubRecipe` (src/unnamed/part_002:13-95).
`kernels` is the list of basenames matching `rootPath/boot/vmlinuz-*` (the
input that `getKernelVersion` reads from the filesystem); `mkdirErr` and
`writeErr` are the outcomes of `os.MkdirAll` and `ioutil.WriteFile`.
The kernel-version check happens first; `filepath.Join` is modelled as
`/`-separated concatenation. -/
def generateGrubRecipe (kernels : List String) (mkdirErr writeErr : Option Err)
    (rootPath rootUuid entryName : String) : Except Err GrubRecipe :=
  let recipePath := rootPath ++ "/etc/grub.d/10_abroot"
  let kernelVersion := getKernelVersion kernels
  if kernelVersion = "" then Except.error Err.noKernel
  else
    match mkdirErr with
    | some e => Except.error e
    | none =>
      match writeErr with
      | some e => Except.error e
      | none => Except.ok ⟨recipePath, renderGrub entryName rootUuid kernelVersion⟩

/-- A partition (fields used by the driver).  Modelled from the spec:
the partition layer itself is not under src/; §3 of the spec records that a
partition carries a stable UUID, a block-device path and a mount point that
is set when the partition is mounted by this process. -/
structure Partition where
  device : String
  uuid : String
  mountPoint : String
deriving DecidableEq, Repr

/-- A root partition as returned by `ABRootManager.GetFuture` (field
`Partition` plus the label used for the boot entry).  Modelled from the
spec: the partition-roles resolver is not under src/. -/
structure ABRootPartition where
  partition : Partition
  identifiedAs : String
deriving DecidableEq, Repr

/-- `Chroot` (src/unnamed/part_001:11-15). -/
structure Chroot where
  root : String
  rootUuid : String
  rootDevice : String
deriving DecidableEq, Repr

/-- `ReservedMounts` (src/unnamed/part_001:17-23), in declaration order. -/
def ReservedMounts : List String := ["/dev", "/dev/pts", "/proc", "/run", "/sys"]

/-- The payload of a queue entry.  In Go, `QueuedFunction.Values` is a
`[]interface{}` whose single element is type-asserted in the drain switch;
here the two possible payloads form a sum. -/
inductive CleanupVal where
  | part (p : ABRootPartition)
  | chroot (c : Chroot)
deriving DecidableEq, Repr

/-- `QueuedFunction` (src/unnamed/part_000:32-35). -/
structure QueuedFunction where
  name : String
  value : CleanupVal
deriving DecidableEq, Repr

/-- Observable effects performed against the outside world, recorded in
order of execution.  Each constructor corresponds to one external call in
the sources. -/
inductive Effect where
  | mountPart (device target : String)
  | unmountPart (device : String)
  | umountCmd (path : String)
  | bindMount (src dst : String)
  | pullImage (ref : String)
  | newContainerFile (image content : String)
  | genRootfs (image content workDir outDir : String)
  | writeImage (mountPoint suffix digest image : String)
  | exchange (a b : String)
  | writeFile (path content : String)
  | chrootCmd (root cmd : String)
  | mergeDiff (src dst : String)
  | mkdir (path : String)
deriving DecidableEq, Repr

/-- Process state threaded through the engine: the package-global cleanup
`queue` (src/unnamed/part_000:37), the trace of performed effects, and the
content passed to `NewContainerFile` at stage 3 (observation point for the
recipe body). -/
structure Sys where
  queue : List QueuedFunction
  trace : List Effect
  containerFileContent : Option String
deriving DecidableEq, Repr

/-- Outcome oracles for every external call the engine makes, plus the
configuration values it reads.  One field per call site; `none` / `.ok`
means the call succeeds. -/
structure Env where
  registryDigest : String
  curDigest : String
  getFuture : Except Err ABRootPartition
  getBoot : Except Err Partition
  mountFutureErr : Option Err
  cnfRegistry : String
  cnfName : String
  cnfTag : String
  pull : Except Err String
  finalCmd : String
  genRootfsErr : Option Err
  abimageWriteErr : Option Err
  swap : String → String → Option Err
  bootKernels : List String
  grubMkdirErr : Option Err
  grubWriteErr : Option Err
  newChrootErr : Option Err
  chrootExecErr : String → String → Option Err
  mergeDiffErr : String → String → Option Err
  tmpUuid : String
  mkdirErr : Option Err
  mountBootErr : Option Err
  umountPathErr : String → Option Err
  unmountPartErr : String → Option Err

/-- Append one performed effect to the trace. -/
def addEffect (st : Sys) (a : Effect) : Sys :=
  { st with trace := st.trace ++ [a] }

/-- `ABSystem.AddToCleanUpQueue` (src/unnamed/part_000:140-145): appends an
entry to the package-global queue. -/
def AddToCleanUpQueue (st : Sys) (name : String) (value : CleanupVal) : Sys :=
  { st with queue := st.queue ++ [⟨name, value⟩] }

/-- `ABSystem.ResetQueue` (src/unnamed/part_000:148-150). -/
def ResetQueue (st : Sys) : Sys :=
  { st with queue := [] }

/-- The loop of `Chroot.Close` (src/unnamed/part_001:67-73): iterate over
`ReservedMounts` in declaration order, run `umount <root><mount>`, and
return the error of the first failing unmount, attempting nothing after
it. -/
def chrootCloseLoop (env : Env) (root : String) : List String → Sys → Option Err × Sys
  | [], st => (none, st)
  | mount :: rest, st =>
    let st := addEffect st (Effect.umountCmd (root ++ mount))
    match env.umountPathErr (root ++ mount) with
    | some e => (some e, st)
    | none => chrootCloseLoop env root rest st

/-- `Chroot.Close` (src/unnamed/part_001:64-77). -/
def Chroot.Close (env : Env) (c : Chroot) (st : Sys) : Option Err × Sys :=
  chrootCloseLoop env c.root ReservedMounts st

/-- `Chroot.Execute` (src/unnamed/part_001:80-97): run one command inside
the chroot; the outcome comes from the environment. -/
def Chroot.Execute (env : Env) (c : Chroot) (cmd : String) (st : Sys) : Option Err × Sys :=
  let st := addEffect st (Effect.chrootCmd c.root cmd)
  (env.chrootExecErr c.root cmd, st)

/-- `Chroot.ExecuteCmds` (src/unnamed/part_001:101-114): run the commands
in order, stopping at the first error. -/
def Chroot.ExecuteCmds (env : Env) (c : Chroot) : List String → Sys → Option Err × Sys
  | [], st => (none, st)
  | cmd :: rest, st =>
    match Chroot.Execute env c cmd st with
    | (some e, st) => (some e, st)
    | (none, st) => Chroot.ExecuteCmds env c rest st

/-- The loop of `ABSystem.RunCleanUpQueue` (src/unnamed/part_000:114-131):
iterate over the queued entries front to back; `umountFuture` entries run
`Partition.Unmount`, `closeChroot` entries run `Chroot.Close`; the first
failure is returned immediately.  Entries whose name matches neither case
are skipped (Go's `switch` default).  Entries whose payload does not match
their name would make the Go type assertion panic; they are skipped here
and never occur in the driver. -/
def runQueueLoop (env : Env) : List QueuedFunction → Sys → Option Err × Sys
  | [], st => (none, st)
  | f :: rest, st =>
    if f.name = "umountFuture" then
      match f.value with
      | CleanupVal.part futurePart =>
        let st := addEffect st (Effect.unmountPart futurePart.partition.device)
        match env.unmountPartErr futurePart.partition.device with
        | some e => (some e, st)
        | none => runQueueLoop env rest st
      | CleanupVal.chroot _ => runQueueLoop env rest st
    else if f.name = "closeChroot" then
      match f.value with
      | CleanupVal.chroot chroot =>
        match Chroot.Close env chroot st with
        | (some e, st) => (some e, st)
        | (none, st) => runQueueLoop env rest st
      | CleanupVal.part _ => runQueueLoop env rest st
    else runQueueLoop env rest st

/-- `ABSystem.RunCleanUpQueue` (src/unnamed/part_000:111-137): run the loop
over the current queue; only when every entry succeeded is `ResetQueue`
reached. -/
def RunCleanUpQueue (env : Env) (st : Sys) : Option Err × Sys :=
  match runQueueLoop env st.queue st with
  | (some e, st) => (some e, st)
  | (none, st) => (none, ResetQueue st)

/-- The fixed file list of `ABSystem.SyncEtc` (src/unnamed/part_000:85-92). -/
def etcFiles : List String := ["passwd", "group", "shells", "shadow", "subuid", "subgid"]

/-- The loop of `ABSystem.SyncEtc` (src/unnamed/part_000:94-104): merge each
file from the overlay into `systemEtc`, returning the first error. -/
def syncEtcLoop (env : Env) (systemEtc : String) : List String → Sys → Option Err × Sys
  | [], st => (none, st)
  | file :: rest, st =>
    let sourceFile := "/var/lib/abroot/etc/" ++ file
    let destFile := systemEtc ++ "/" ++ file
    let st := addEffect st (Effect.mergeDiff sourceFile destFile)
    match env.mergeDiffErr sourceFile destFile with
    | some e => (some e, st)
    | none => syncEtcLoop env systemEtc rest st

/-- `ABSystem.SyncEtc` (src/unnamed/part_000:82-108). -/
def SyncEtc (env : Env) (systemEtc : String) (st : Sys) : Option Err × Sys :=
  syncEtcLoop env systemEtc etcFiles st

/-- `ABSystem.CheckUpdate` (src/unnamed/part_000:76-79).  Modelled from the
spec: `Registry.HasUpdate` is not under src/; per spec §4.9/§8.2 there is
an update exactly when the registry digest differs from the digest of the
present image descriptor. -/
def CheckUpdate (env : Env) : Bool :=
  env.registryDigest != env.curDigest

/-- Stages 8-10 of `ABSystem.Upgrade` (src/unnamed/part_000:320-359):
sync `/etc`, mount the boot partition under a fresh temporary directory,
and atomically swap `grub.cfg` with `grub.cfg.future`. -/
def upgradeStage8on (env : Env) (partFuture : ABRootPartition) (partBoot : Partition)
    (st : Sys) : Option Err × Sys :=
  -- Stage 8: sync /etc
  match SyncEtc env (partFuture.partition.mountPoint ++ "/.system/etc/") st with
  | (some e, st) => (some e, st)
  | (none, st) =>
  -- Stage 9: mount boot partition
  match env.mkdirErr with
  | some e => (some e, st)
  | none =>
  let st := addEffect st (Effect.mkdir ("/tmp/" ++ env.tmpUuid))
  match env.mountBootErr with
  | some e => (some e, st)
  | none =>
  let st := addEffect st (Effect.mountPart partBoot.device ("/tmp/" ++ env.tmpUuid))
  -- Stage 10: atomic swap the bootloader
  match env.swap ("/tmp/" ++ env.tmpUuid ++ "/grub.cfg")
      ("/tmp/" ++ env.tmpUuid ++ "/grub.cfg.future") with
  | some e => (some e, st)
  | none =>
  let st := addEffect st (Effect.exchange ("/tmp/" ++ env.tmpUuid ++ "/grub.cfg")
    ("/tmp/" ++ env.tmpUuid ++ "/grub.cfg.future"))
  (none, st)

/-- The tail of stage 7 (src/unnamed/part_000:309-318) and the remaining
stages: run `grub-mkconfig` and `exit` inside the chroot, stopping on
error, then continue with stage 8. -/
def upgradeStage7exec (env : Env) (partFuture : ABRootPartition) (partBoot : Partition)
    (chroot : Chroot) (st : Sys) : Option Err × Sys :=
  match Chroot.ExecuteCmds env chroot ["grub-mkconfig -o /boot/grub/grub.cfg", "exit"] st with
  | (some e, st) => (some e, st)
  | (none, st) => upgradeStage8on env partFuture partBoot st

/-- Stages 4-7 of `ABSystem.Upgrade` (src/unnamed/part_000:237-307), the
remaining stages following through `upgradeStage7exec` and
`upgradeStage8on`.  `partFuture` already carries its mount point;
`fullImageName`, `content` and `digest` are the values computed in
stages 2-3. -/
def upgradeStage4on (env : Env) (partFuture : ABRootPartition) (partBoot : Partition)
    (fullImageName content digest : String) (st : Sys) : Option Err × Sys :=
  -- Stage 4: extract the rootfs
  match env.genRootfsErr with
  | some e => (some e, st)
  | none =>
  let st := addEffect st (Effect.genRootfs fullImageName content partFuture.partition.mountPoint
    (partFuture.partition.mountPoint ++ "/.system.new/"))
  -- Stage 5: write abimage.abr.new to future/
  match env.abimageWriteErr with
  | some e => (some e, st)
  | none =>
  let st := addEffect st
    (Effect.writeImage partFuture.partition.mountPoint "new" digest fullImageName)
  -- Stage 6: atomic swap the rootfs and abimage.abr
  match env.swap (partFuture.partition.mountPoint ++ "/.system/")
      (partFuture.partition.mountPoint ++ "/.system.new/") with
  | some e => (some e, st)
  | none =>
  let st := addEffect st (Effect.exchange (partFuture.partition.mountPoint ++ "/.system/")
    (partFuture.partition.mountPoint ++ "/.system.new/"))
  match env.swap (partFuture.partition.mountPoint ++ "/abimage.abr")
      (partFuture.partition.mountPoint ++ "/abimage-new.abr") with
  | some e => (some e, st)
  | none =>
  let st := addEffect st (Effect.exchange (partFuture.partition.mountPoint ++ "/abimage.abr")
    (partFuture.partition.mountPoint ++ "/abimage-new.abr"))
  -- Stage 7: update the bootloader
  match generateGrubRecipe env.bootKernels env.grubMkdirErr env.grubWriteErr
      (partFuture.partition.mountPoint ++ "/.system/") partFuture.partition.uuid
      partFuture.identifiedAs with
  | Except.error e => (some e, st)
  | Except.ok recipe =>
  let st := addEffect st (Effect.writeFile recipe.path recipe.content)
  match env.newChrootErr with
  | some e => (some e, st)
  | none =>
  -- NewChroot (src/unnamed/part_001:26-61): strips double slashes from the
  -- root, bind-mounts / onto / and then each reserved mount under the root.
  let chroot : Chroot :=
    ⟨(partFuture.partition.mountPoint ++ "/.system/").replace "//" "/",
      partFuture.partition.uuid, partFuture.partition.device⟩
  let st := addEffect st (Effect.bindMount "/" "/")
  let st := ReservedMounts.foldl
    (fun s mount => addEffect s (Effect.bindMount mount (chroot.root ++ mount))) st
  let st := AddToCleanUpQueue st "closeChroot" (CleanupVal.chroot chroot)
  upgradeStage7exec env partFuture partBoot chroot st

/-- `ABSystem.Upgrade` (src/unnamed/part_000:153-359).  The queue is reset
at entry; stage 0 checks for an update; stage 1 resolves and mounts the
future partition (`Partition.Mount` records the target as the partition's
mount point) and registers `umountFuture`; stage 2 pulls the image;
stage 3 builds the containerfile body (empty final command becomes
`true`); the remaining stages are `upgradeStage4on`.  Note the function
returns on every failure without running the cleanup queue, and does not
run it on success either. -/
def Upgrade (env : Env) (st : Sys) : Option Err × Sys :=
  let st := ResetQueue st
  -- Stage 0: check if there is an update available
  if !CheckUpdate env then (some Err.noUpdate, st)
  else
  -- Stage 1: get the future root and boot partitions, mount future
  match env.getFuture with
  | Except.error e => (some e, st)
  | Except.ok partFuture0 =>
  match env.getBoot with
  | Except.error e => (some e, st)
  | Except.ok partBoot =>
  match env.mountFutureErr with
  | some e => (some e, st)
  | none =>
  let partFuture : ABRootPartition :=
    { partFuture0 with partition := { partFuture0.partition with mountPoint := "/part-future/" } }
  let st := addEffect st (Effect.mountPart partFuture.partition.device "/part-future/")
  let st := AddToCleanUpQueue st "umountFuture" (CleanupVal.part partFuture)
  -- Stage 2: pull the new image
  let fullImageName := env.cnfRegistry ++ "/" ++ env.cnfName ++ ":" ++ env.cnfTag
  match env.pull with
  | Except.error e => (some e, st)
  | Except.ok digest =>
  let st := addEffect st (Effect.pullImage fullImageName)
  -- Stage 3: make a containerfile with user packages
  let pkgsFinal0 := env.finalCmd
  let pkgsFinal := if pkgsFinal0 = "" then "true" else pkgsFinal0
  let content := "RUN " ++ pkgsFinal
  let st := addEffect st (Effect.newContainerFile fullImageName content)
  let st := { st with containerFileContent := some content }
  upgradeStage4on env partFuture partBoot fullImageName content digest st

/-- The unmount attempts `Chroot.Close` makes for a given mount list, and
the error it returns: attempts stop right after the first failing
`umount`. -/
def closeAttemptActs (env : Env) (root : String) : List String → List Effect × Option Err
  | [] => ([], none)
  | mount :: rest =>
    match env.umountPathErr (root ++ mount) with
    | some e => ([Effect.umountCmd (root ++ mount)], some e)
    | none =>
      let r := closeAttemptActs env root rest
      (Effect.umountCmd (root ++ mount) :: r.1, r.2)

/-- The effects a single queue entry performs when the drain reaches it
(the failing action is still attempted). -/
def entryAttempted (env : Env) (f : QueuedFunction) : List Effect :=
  if f.name = "umountFuture" then
    match f.value with
    | CleanupVal.part p => [Effect.unmountPart p.partition.device]
    | CleanupVal.chroot _ => []
  else if f.name = "closeChroot" then
    match f.value with
    | CleanupVal.chroot c => (closeAttemptActs env c.root ReservedMounts).1
    | CleanupVal.part _ => []
  else []

/-- The error a single queue entry produces when the drain reaches it. -/
def entryErr (env : Env) (f : QueuedFunction) : Option Err :=
  if f.name = "umountFuture" then
    match f.value with
    | CleanupVal.part p => env.unmountPartErr p.partition.device
    | CleanupVal.chroot _ => none
  else if f.name = "closeChroot" then
    match f.value with
    | CleanupVal.chroot c => (closeAttemptActs env c.root ReservedMounts).2
    | CleanupVal.part _ => none
  else none

/-- The effects performed and error returned by a drain of the given
entries, front to back, stopping at the first failing entry. -/
def drainSpecActs (env : Env) : List QueuedFunction → List Effect × Option Err
  | [] => ([], none)
  | f :: rest =>
    match entryErr env f with
    | some e => (entryAttempted env f, some e)
    | none =>
      let r := drainSpecActs env rest
      (entryAttempted env f ++ r.1, r.2)

theorem chrootCloseLoop_eq (env : Env) (root : String) (ms : List String) :
    ∀ st : Sys, chrootCloseLoop env root ms st =
      ((closeAttemptActs env root ms).2,
        { st with trace := st.trace ++ (closeAttemptActs env root ms).1 }) := by
  induction ms with
  | nil => intro st; simp [chrootCloseLoop, closeAttemptActs]
  | cons mount rest ih =>
    intro st
    simp only [chrootCloseLoop, closeAttemptActs, addEffect]
    cases h : env.umountPathErr (root ++ mount) with
    | none => rw [ih]; simp [h]
    | some e => simp [h]

theorem runQueueLoop_eq (env : Env) (q : List QueuedFunction) :
    ∀ st : Sys, runQueueLoop env q st =
      ((drainSpecActs env q).2,
        { st with trace := st.trace ++ (drainSpecActs env q).1 }) := by
  induction q with
  | nil => intro st; simp [runQueueLoop, drainSpecActs]
  | cons f rest ih =>
    intro st
    by_cases hn : f.name = "umountFuture"
    · cases hv : f.value with
      | part p =>
        simp only [runQueueLoop, drainSpecActs, entryErr, entryAttempted, hn, hv, if_pos,
          addEffect]
        cases h : env.unmountPartErr p.partition.device with
        | none => rw [ih]; simp [h]
        | some e => simp [h]
      | chroot c =>
        simp only [runQueueLoop, drainSpecActs, entryErr, entryAttempted, hn, hv, if_pos]
        rw [ih]; simp
    · by_cases hc : f.name = "closeChroot"
      · cases hv : f.value with
        | part p =>
          simp only [runQueueLoop, drainSpecActs, entryErr, entryAttempted, hn, hc, hv,
            if_neg, if_pos]
          simpa using ih st
        | chroot c =>
          simp only [runQueueLoop, drainSpecActs, entryErr, entryAttempted, hn, hc, hv,
            if_neg, if_pos, Chroot.Close]
          rw [chrootCloseLoop_eq]
          cases h : (closeAttemptActs env c.root ReservedMounts).2 with
          | none => simp [h, ih, List.append_assoc]
          | some e => simp [h]
      · simp only [runQueueLoop, drainSpecActs, entryErr, entryAttempted, hn, hc, if_neg]
        rw [ih]; simp

theorem drainSpecActs_all_ok (env : Env) (q : List QueuedFunction)
    (h : ∀ f ∈ q, entryErr env f = none) :
    drainSpecActs env q = (q.flatMap (entryAttempted env), none) := by
  induction q with
  | nil => simp [drainSpecActs]
  | cons f rest ih =>
    have hf : entryErr env f = none := h f (List.mem_cons_self f rest)
    have hr := ih fun g hg => h g (List.mem_cons_of_mem f hg)
    simp [drainSpecActs, hf, hr]

theorem drainSpecActs_fail (env : Env) (q₁ : List QueuedFunction) (f : QueuedFunction)
    (q₂ : List QueuedFunction) (e : Err) (h₁ : ∀ g ∈ q₁, entryErr env g = none)
    (hf : entryErr env f = some e) :
    drainSpecActs env (q₁ ++ f :: q₂) =
      (q₁.flatMap (entryAttempted env) ++ entryAttempted env f, some e) := by
  induction q₁ with
  | nil => simp [drainSpecActs, hf]
  | cons g rest ih =>
    have hg : entryErr env g = none := h₁ g (List.mem_cons_self g rest)
    have hr := ih fun g' hg' => h₁ g' (List.mem_cons_of_mem g hg')
    simp [drainSpecActs, hg, hr, List.append_assoc]

/-- `RunCleanUpQueue` in terms of the drain characterization: the queue is
emptied only when no entry failed. -/
theorem runCleanUpQueue_eq (env : Env) (st : Sys) :
    RunCleanUpQueue env st =
      match (drainSpecActs env st.queue).2 with
      | some e =>
        (some e, { st with trace := st.trace ++ (drainSpecActs env st.queue).1 })
      | none =>
        (none, { st with queue := [], trace := st.trace ++ (drainSpecActs env st.queue).1 }) := by
  simp only [RunCleanUpQueue, runQueueLoop_eq, ResetQueue]
  cases (drainSpecActs env st.queue).2 <;> simp

/-- An all-success environment: every external call succeeds; the registry
digest differs from the present one; one kernel is installed. -/
def env0 : Env :=
  { registryDigest := "sha256:bbb"
    curDigest := "sha256:aaa"
    getFuture := Except.ok ⟨⟨"/dev/vda3", "uuid-future", ""⟩, "b"⟩
    getBoot := Except.ok ⟨"/dev/vda1", "uuid-boot", ""⟩
    mountFutureErr := none
    cnfRegistry := "registry.vanillaos.org"
    cnfName := "desktop"
    cnfTag := "main"
    pull := Except.ok "sha256:bbb"
    finalCmd := ""
    genRootfsErr := none
    abimageWriteErr := none
    swap := fun _ _ => none
    bootKernels := ["vmlinuz-6.5.0-1"]
    grubMkdirErr := none
    grubWriteErr := none
    newChrootErr := none
    chrootExecErr := fun _ _ => none
    mergeDiffErr := fun _ _ => none
    tmpUuid := "3c9f2a"
    mkdirErr := none
    mountBootErr := none
    umountPathErr := fun _ => none
    unmountPartErr := fun _ => none }

/-- The empty initial state. -/
def sys0 : Sys := ⟨[], [], none⟩

/-- Two `umountFuture` entries pushed in order: first for `/dev/vda3`, then
for `/dev/vdb3`. -/
def stTwo : Sys :=
  ⟨[⟨"umountFuture", CleanupVal.part ⟨⟨"/dev/vda3", "uuid-a", "/part-future/"⟩, "a"⟩⟩,
    ⟨"umountFuture", CleanupVal.part ⟨⟨"/dev/vdb3", "uuid-b", "/part-future/"⟩, "b"⟩⟩], [], none⟩

/-- Environment in which unmounting `/dev/vda3` fails. -/
def envFailA : Env :=
  { env0 with unmountPartErr := fun d =>
      if d = "/dev/vda3" then some (Err.ioErr "target is busy") else none }

/-- C4: counterexample.  The claim says the drain executes queue entries in
LIFO order (last pushed first).  With two `umountFuture` entries pushed for
`/dev/vda3` then `/dev/vdb3` and every unmount succeeding, the drain
unmounts `/dev/vda3` first — front-to-back (FIFO), not LIFO. -/
theorem runCleanUpQueue_not_lifo :
    (RunCleanUpQueue env0 stTwo).2.trace =
      [Effect.unmountPart "/dev/vda3", Effect.unmountPart "/dev/vdb3"] ∧
    (RunCleanUpQueue env0 stTwo).2.trace ≠
      [Effect.unmountPart "/dev/vdb3", Effect.unmountPart "/dev/vda3"] := by
  decide

/-- C4 (amended): when every entry's action succeeds, draining the cleanup
queue executes the entries in FIFO order — the entry pushed first runs
first, each entry contributing its actions in push order — after which the
queue is reset. -/
theorem runCleanUpQueue_fifo (env : Env) (st : Sys)
    (h : ∀ f ∈ st.queue, entryErr env f = none) :
    RunCleanUpQueue env st =
      (none,
        { st with
          queue := []
          trace := st.trace ++ st.queue.flatMap (entryAttempted env) }) := by
  rw [runCleanUpQueue_eq, drainSpecActs_all_ok env st.queue h]

theorem runCleanUpQueue_fifo_witness :
    RunCleanUpQueue env0 stTwo =
      (none,
        { stTwo with
          queue := []
          trace := stTwo.trace ++ stTwo.queue.flatMap (entryAttempted env0) }) :=
  runCleanUpQueue_fifo env0 stTwo (by decide)

/-- C5: counterexample.  The claim says a failing entry does not abort the
drain and errors are accumulated.  With the first of two `umountFuture`
entries failing, the drain returns that single error immediately and the
second entry's unmount is never attempted. -/
theorem runCleanUpQueue_aborts_on_error :
    (RunCleanUpQueue envFailA stTwo).1 = some (Err.ioErr "target is busy") ∧
    Effect.unmountPart "/dev/vdb3" ∉ (RunCleanUpQueue envFailA stTwo).2.trace := by
  decide

/-- C5 (amended): when a cleanup entry fails during the drain, the drain
stops at that entry: the error of the first failing entry is returned as
is, the entries after it are not executed, and the queue is not reset. -/
theorem runCleanUpQueue_first_error (env : Env) (st : Sys) (q₁ : List QueuedFunction)
    (f : QueuedFunction) (q₂ : List QueuedFunction) (e : Err)
    (hq : st.queue = q₁ ++ f :: q₂) (h₁ : ∀ g ∈ q₁, entryErr env g = none)
    (hf : entryErr env f = some e) :
    RunCleanUpQueue env st =
      (some e, { st with trace :=
        st.trace ++ (q₁.flatMap (entryAttempted env) ++ entryAttempted env f) }) := by
  rw [runCleanUpQueue_eq]
  rw [show st.queue = q₁ ++ f :: q₂ from hq, drainSpecActs_fail env q₁ f q₂ e h₁ hf]

theorem runCleanUpQueue_first_error_witness :
    RunCleanUpQueue envFailA stTwo =
      (some (Err.ioErr "target is busy"), { stTwo with trace :=
        stTwo.trace ++ (([] : List QueuedFunction).flatMap (entryAttempted envFailA) ++
          entryAttempted envFailA
            ⟨"umountFuture", CleanupVal.part ⟨⟨"/dev/vda3", "uuid-a", "/part-future/"⟩, "a"⟩⟩) }) :=
  runCleanUpQueue_first_error envFailA stTwo []
    ⟨"umountFuture", CleanupVal.part ⟨⟨"/dev/vda3", "uuid-a", "/part-future/"⟩, "a"⟩⟩
    [⟨"umountFuture", CleanupVal.part ⟨⟨"/dev/vdb3", "uuid-b", "/part-future/"⟩, "b"⟩⟩]
    (Err.ioErr "target is busy") (by decide) (by decide) (by decide)

/-- C10: whenever a drain of the cleanup queue fails on some entry, the
process-global queue is not reset — every entry, including the ones whose
actions already ran, remains queued, and a second drain in the same
environment fails the same way while re-performing the already-performed
actions; the queue is emptied exactly when the drain returns no error. -/
theorem runCleanUpQueue_queue_persistence (env : Env) (st : Sys) :
    (∀ e : Err, (RunCleanUpQueue env st).1 = some e →
      (RunCleanUpQueue env st).2.queue = st.queue ∧
      (RunCleanUpQueue env ((RunCleanUpQueue env st).2)).1 = some e ∧
      (RunCleanUpQueue env ((RunCleanUpQueue env st).2)).2.trace =
        st.trace ++ (drainSpecActs env st.queue).1 ++ (drainSpecActs env st.queue).1) ∧
    ((RunCleanUpQueue env st).1 = none → (RunCleanUpQueue env st).2.queue = []) := by
  have hq := runCleanUpQueue_eq env st
  cases hds : (drainSpecActs env st.queue).2 with
  | some e0 =>
    rw [hds] at hq
    constructor
    · intro e he
      rw [hq] at he ⊢
      have he0 : e0 = e := by simpa using he
      subst he0
      refine ⟨rfl, ?_⟩
      have hq2 := runCleanUpQueue_eq env
        { st with trace := st.trace ++ (drainSpecActs env st.queue).1 }
      simp only [hds] at hq2
      rw [hq2]
      exact ⟨rfl, by simp [List.append_assoc]⟩
    · intro he; rw [hq] at he; simp at he
  | none =>
    rw [hds] at hq
    constructor
    · intro e he; rw [hq] at he; simp at he
    · intro _; rw [hq]

theorem runCleanUpQueue_queue_persistence_witness :
    ((RunCleanUpQueue envFailA stTwo).2.queue = stTwo.queue ∧
      (RunCleanUpQueue envFailA ((RunCleanUpQueue envFailA stTwo).2)).1 =
        some (Err.ioErr "target is busy") ∧
      (RunCleanUpQueue envFailA ((RunCleanUpQueue envFailA stTwo).2)).2.trace =
        stTwo.trace ++ (drainSpecActs envFailA stTwo.queue).1 ++
          (drainSpecActs envFailA stTwo.queue).1) ∧
    ((RunCleanUpQueue env0 stTwo).1 = none → (RunCleanUpQueue env0 stTwo).2.queue = []) :=
  ⟨(runCleanUpQueue_queue_persistence envFailA stTwo).1 (Err.ioErr "target is busy") (by decide),
    (runCleanUpQueue_queue_persistence env0 stTwo).2⟩

theorem closeAttemptActs_all_ok (env : Env) (root : String) (ms : List String)
    (h : ∀ m ∈ ms, env.umountPathErr (root ++ m) = none) :
    closeAttemptActs env root ms = (ms.map fun m => Effect.umountCmd (root ++ m), none) := by
  induction ms with
  | nil => simp [closeAttemptActs]
  | cons mount rest ih =>
    have hm : env.umountPathErr (root ++ mount) = none := h mount (List.mem_cons_self mount rest)
    have hr := ih fun m hmem => h m (List.mem_cons_of_mem mount hmem)
    simp [closeAttemptActs, hm, hr]

theorem closeAttemptActs_fail (env : Env) (root : String) (ms₁ : List String) (m : String)
    (ms₂ : List String) (e : Err) (h₁ : ∀ m' ∈ ms₁, env.umountPathErr (root ++ m') = none)
    (hm : env.umountPathErr (root ++ m) = some e) :
    closeAttemptActs env root (ms₁ ++ m :: ms₂) =
      ((ms₁ ++ [m]).map fun m' => Effect.umountCmd (root ++ m'), some e) := by
  induction ms₁ with
  | nil => simp [closeAttemptActs, hm]
  | cons m0 rest ih =>
    have hm0 : env.umountPathErr (root ++ m0) = none := h₁ m0 (List.mem_cons_self m0 rest)
    have hr := ih fun m' hmem => h₁ m' (List.mem_cons_of_mem m0 hmem)
    simp [closeAttemptActs, hm0, hr]

/-- A chroot session as the driver opens it in stage 7. -/
def chrootC : Chroot := ⟨"/part-future/.system/", "uuid-future", "/dev/vda3"⟩

/-- Environment in which `umount /part-future/.system//dev` fails. -/
def envUmountDevFails : Env :=
  { env0 with umountPathErr := fun p =>
      if p = "/part-future/.system//dev" then some (Err.ioErr "target is busy") else none }

/-- C6: counterexample.  The claim says `Chroot.Close` unmounts the reserved
bind mounts in reverse order of mounting and keeps attempting the remaining
unmounts when one fails.  With every unmount succeeding, the attempts run
in the same forward order as `ReservedMounts` (`/dev` first, `/sys` last),
not in reverse; and when unmounting `/dev` fails, the four remaining
unmounts are never attempted. -/
theorem chrootClose_forward_and_aborts :
    (Chroot.Close env0 chrootC sys0).2.trace =
      (ReservedMounts.map fun m => Effect.umountCmd (chrootC.root ++ m)) ∧
    (Chroot.Close env0 chrootC sys0).2.trace ≠
      (ReservedMounts.reverse.map fun m => Effect.umountCmd (chrootC.root ++ m)) ∧
    (Chroot.Close envUmountDevFails chrootC sys0).1 = some (Err.ioErr "target is busy") ∧
    Effect.umountCmd "/part-future/.system//sys" ∉
      (Chroot.Close envUmountDevFails chrootC sys0).2.trace := by
  decide

/-- C6 (amended): `Chroot.Close` attempts the reserved unmounts in the same
order the mounts were established (`/dev`, `/dev/pts`, `/proc`, `/run`,
`/sys`); when every unmount succeeds they all run, and when one fails the
loop returns that first error immediately, attempting none of the
remaining unmounts. -/
theorem chrootClose_spec (env : Env) (c : Chroot) (st : Sys) :
    ((∀ m ∈ ReservedMounts, env.umountPathErr (c.root ++ m) = none) →
      Chroot.Close env c st =
        (none, { st with trace :=
          st.trace ++ ReservedMounts.map fun m => Effect.umountCmd (c.root ++ m) })) ∧
    (∀ ms₁ m ms₂ e, ReservedMounts = ms₁ ++ m :: ms₂ →
      (∀ m' ∈ ms₁, env.umountPathErr (c.root ++ m') = none) →
      env.umountPathErr (c.root ++ m) = some e →
      Chroot.Close env c st =
        (some e, { st with trace :=
          st.trace ++ (ms₁ ++ [m]).map fun m' => Effect.umountCmd (c.root ++ m') })) := by
  constructor
  · intro h
    rw [Chroot.Close, chrootCloseLoop_eq, closeAttemptActs_all_ok env c.root ReservedMounts h]
  · intro ms₁ m ms₂ e hsplit h₁ hm
    rw [Chroot.Close, chrootCloseLoop_eq, hsplit,
      closeAttemptActs_fail env c.root ms₁ m ms₂ e h₁ hm]

theorem chrootClose_spec_witness :
    (Chroot.Close env0 chrootC sys0 =
      (none, { sys0 with trace :=
        sys0.trace ++ ReservedMounts.map fun m => Effect.umountCmd (chrootC.root ++ m) })) ∧
    (Chroot.Close envUmountDevFails chrootC sys0 =
      (some (Err.ioErr "target is busy"), { sys0 with trace :=
        sys0.trace ++ (([] : List String) ++ ["/dev"]).map fun m' => Effect.umountCmd (chrootC.root ++ m') })) :=
  ⟨(chrootClose_spec env0 chrootC sys0).1 (by decide),
    (chrootClose_spec envUmountDevFails chrootC sys0).2 [] "/dev"
      ["/dev/pts", "/proc", "/run", "/sys"] (Err.ioErr "target is busy")
      (by decide) (by decide) (by decide)⟩

theorem charListLess_iff (l₁ l₂ : List Char) : charListLess l₁ l₂ = true ↔ l₁ < l₂ := by
  induction l₁ generalizing l₂ with
  | nil =>
    cases l₂ with
    | nil =>
      simp only [charListLess, Bool.false_eq_true, false_iff]
      exact fun h => by cases h
    | cons b bs =>
      simp only [charListLess, true_iff]
      exact List.Lex.nil
  | cons a as ih =>
    cases l₂ with
    | nil =>
      simp only [charListLess, Bool.false_eq_true, false_iff]
      exact fun h => by cases h
    | cons b bs =>
      simp only [charListLess]
      by_cases hab : a < b
      · simp only [hab, if_true, true_iff]
        exact List.Lex.rel hab
      · by_cases hba : b < a
        · simp only [hab, hba, if_false, if_true, Bool.false_eq_true, false_iff]
          intro h
          cases h with
          | cons h3 => exact absurd hba (lt_irrefl a)
          | rel h2 => exact hab h2
        · have hEq : a = b := le_antisymm (le_of_not_lt hba) (le_of_not_lt hab)
          subst hEq
          simp only [hab, if_false, ih bs]
          constructor
          · exact fun h => List.Lex.cons h
          · intro h
            cases h with
            | cons h3 => exact h3
            | rel h2 => exact absurd h2 hab

theorem charListLess_str (a b : String) : charListLess a.data b.data = true ↔ a < b := by
  rw [String.lt_iff_toList_lt]
  exact charListLess_iff a.data b.data

theorem le_foldlMax (l : List String) :
    ∀ a : String,
      a ≤ l.foldl (fun m v => if charListLess m.data v.data then v else m) a := by
  induction l with
  | nil => intro a; exact le_refl a
  | cons v rest ih =>
    intro a
    refine le_trans ?_ (ih (if charListLess a.data v.data then v else a))
    by_cases h : charListLess a.data v.data = true
    · rw [if_pos h]
      exact le_of_lt ((charListLess_str a v).mp h)
    · rw [if_neg h]

theorem mem_le_foldlMax (l : List String) :
    ∀ (a k : String), k ∈ l →
      k ≤ l.foldl (fun m v => if charListLess m.data v.data then v else m) a := by
  induction l with
  | nil => intro a k hk; cases hk
  | cons v rest ih =>
    intro a k hk
    rcases List.mem_cons.mp hk with h | h
    · subst h
      refine le_trans ?_ (le_foldlMax rest (if charListLess a.data k.data then k else a))
      by_cases hak : charListLess a.data k.data = true
      · rw [if_pos hak]
      · rw [if_neg hak]
        exact le_of_not_lt fun hlt => hak ((charListLess_str a k).mpr hlt)
    · exact ih (if charListLess a.data v.data then v else a) k h

theorem foldlMax_mem (l : List String) :
    ∀ a : String,
      l.foldl (fun m v => if charListLess m.data v.data then v else m) a = a ∨
        l.foldl (fun m v => if charListLess m.data v.data then v else m) a ∈ l := by
  induction l with
  | nil => intro a; exact Or.inl rfl
  | cons v rest ih =>
    intro a
    rcases ih (if charListLess a.data v.data then v else a) with h | h
    · rw [List.foldl_cons, h]
      by_cases hav : charListLess a.data v.data = true
      · right; rw [if_pos hav]; exact List.mem_cons_self v rest
      · left; rw [if_neg hav]
    · right; exact List.mem_cons_of_mem v h

theorem str_pos_of_ne_empty (k : String) (h : k ≠ "") : "" < k := by
  rw [String.lt_iff_toList_lt]
  cases hk : k.toList with
  | nil =>
    exact absurd (String.toList_inj.mp (by simpa using hk)) h
  | cons c cs =>
    simpa using List.nil_lt_cons c cs

/-- The value `getKernelVersion` returns on a non-empty list of non-empty
names is a member of the list and bounds every member: the
lexicographically greatest matched filename. -/
theorem getKernelVersion_spec (kernels : List String) (hk : kernels ≠ [])
    (hne : ∀ k ∈ kernels, k ≠ "") :
    getKernelVersion kernels ∈ kernels ∧ ∀ k ∈ kernels, k ≤ getKernelVersion kernels := by
  have hmax : ∀ k ∈ kernels, k ≤ getKernelVersion kernels := fun k hkm =>
    mem_le_foldlMax kernels "" k hkm
  refine ⟨?_, hmax⟩
  rcases foldlMax_mem kernels "" with h0 | h0
  · obtain ⟨k, hkm⟩ := List.exists_mem_of_ne_nil kernels hk
    have hle : k ≤ getKernelVersion kernels := hmax k hkm
    rw [getKernelVersion, h0] at hle
    exact absurd hle (not_le.mpr (str_pos_of_ne_empty k (hne k hkm)))
  · exact h0

theorem renderGrub_decomp (e u v : String) :
    renderGrub e u v =
      (grubTp0 ++ e ++ grubTp1 ++ u ++ "\n\t") ++
        ("linux   /.system/boot/vmlinuz-" ++ v ++ " root=UUID=" ++ u ++
          " quiet splash bgrt_disable $vt_handoff") ++
        ("\n\tinitrd  /.system/boot/initrd.img-" ++ v) := by
  have h2 : grubTp2 = "\n\t" ++ "linux   /.system/boot/vmlinuz-" := by decide
  have h4 : grubTp4 = " quiet splash bgrt_disable $vt_handoff" ++
      "\n\tinitrd  /.system/boot/initrd.img-" := by decide
  rw [renderGrub, h2, h4, grubTp3]
  simp only [String.append_assoc]

/-- C3: for every root whose `boot/` holds at least one file matching
`vmlinuz-*`, `generateGrubRecipe` (with the directory creation and file
write succeeding) writes `etc/grub.d/10_abroot` whose `linux` line is
`/.system/boot/vmlinuz-<ver>` with the kernel command line
`root=UUID=<uuid> quiet splash bgrt_disable $vt_handoff`, where `<ver>` is
the lexicographically greatest matched filename; with no matching file it
fails with `NoKernel` regardless of the write outcomes. -/
theorem generateGrubRecipe_spec (kernels : List String)
    (rootPath rootUuid entryName : String)
    (hpre : ∀ k ∈ kernels, "vmlinuz-".toList.isPrefixOf k.toList = true) :
    (kernels = [] → ∀ mkdirErr writeErr,
      generateGrubRecipe kernels mkdirErr writeErr rootPath rootUuid entryName =
        Except.error Err.noKernel) ∧
    (kernels ≠ [] → ∃ ver pre post,
      generateGrubRecipe kernels none none rootPath rootUuid entryName =
        Except.ok ⟨rootPath ++ "/etc/grub.d/10_abroot",
          pre ++ ("linux   /.system/boot/vmlinuz-" ++ ver ++ " root=UUID=" ++ rootUuid ++
            " quiet splash bgrt_disable $vt_handoff") ++ post⟩ ∧
      ver ∈ kernels ∧ ∀ k ∈ kernels, k ≤ ver) := by
  constructor
  · intro hk mkdirErr writeErr
    subst hk
    simp [generateGrubRecipe, getKernelVersion]
  · intro hk
    have hne : ∀ k ∈ kernels, k ≠ "" := by
      intro k hkm hke
      have hp := hpre k hkm
      rw [hke] at hp
      exact absurd hp (by decide)
    obtain ⟨hmem, hmax⟩ := getKernelVersion_spec kernels hk hne
    have hver : ¬ getKernelVersion kernels = "" := hne _ hmem
    refine ⟨getKernelVersion kernels,
      grubTp0 ++ entryName ++ grubTp1 ++ rootUuid ++ "\n\t",
      "\n\tinitrd  /.system/boot/initrd.img-" ++ getKernelVersion kernels, ?_, hmem, hmax⟩
    simp only [generateGrubRecipe, if_neg hver]
    rw [renderGrub_decomp]

theorem generateGrubRecipe_spec_witness :
    ((["vmlinuz-6.5.0-1"] : List String) = [] → ∀ mkdirErr writeErr,
      generateGrubRecipe ["vmlinuz-6.5.0-1"] mkdirErr writeErr "/part-future/.system"
        "abc-123" "Foo" = Except.error Err.noKernel) ∧
    ((["vmlinuz-6.5.0-1"] : List String) ≠ [] → ∃ ver pre post,
      generateGrubRecipe ["vmlinuz-6.5.0-1"] none none "/part-future/.system"
        "abc-123" "Foo" =
        Except.ok ⟨"/part-future/.system" ++ "/etc/grub.d/10_abroot",
          pre ++ ("linux   /.system/boot/vmlinuz-" ++ ver ++ " root=UUID=" ++ "abc-123" ++
            " quiet splash bgrt_disable $vt_handoff") ++ post⟩ ∧
      ver ∈ (["vmlinuz-6.5.0-1"] : List String) ∧
      ∀ k ∈ (["vmlinuz-6.5.0-1"] : List String), k ≤ ver) :=
  generateGrubRecipe_spec ["vmlinuz-6.5.0-1"] "/part-future/.system" "abc-123" "Foo"
    (by decide)

theorem fsLookup_fsExchange_left (fs : List (String × Inode)) (a b : String) (ia ib : Inode)
    (ha : fsLookup fs a = some ia) :
    fsLookup (fsExchange fs a b ia ib) a = some ib := by
  induction fs with
  | nil => simp [fsLookup] at ha
  | cons hd tl ih =>
    obtain ⟨k, v⟩ := hd
    by_cases h1 : k = a
    · subst h1
      simp [fsExchange, fsLookup]
    · have ha2 : fsLookup tl a = some ia := by simpa [fsLookup, h1] using ha
      simpa [fsExchange, fsLookup, h1] using ih ha2

theorem fsLookup_fsExchange_right (fs : List (String × Inode)) (a b : String) (ia ib : Inode)
    (ha : fsLookup fs a = some ia) (hb : fsLookup fs b = some ib) :
    fsLookup (fsExchange fs a b ia ib) b = some ia := by
  by_cases hab : a = b
  · subst hab
    rw [ha] at hb
    cases hb
    exact fsLookup_fsExchange_left fs a a ia ia ha
  · clear ha
    induction fs with
    | nil => simp [fsLookup] at hb
    | cons hd tl ih =>
      obtain ⟨k, v⟩ := hd
      by_cases h2 : k = b
      · subst h2
        have hka : ¬ k = a := fun h => hab h.symm
        simp [fsExchange, fsLookup, hka]
      · have hb2 : fsLookup tl b = some ib := by simpa [fsLookup, h2] using hb
        simpa [fsExchange, fsLookup, h2] using ih hb2

/-- C8: `AtomicSwap` returns an error and performs no exchange when either
path does not exist (only the failed `open` is attempted, the filesystem
is unchanged, and no rename of either flavour is issued); when both paths
exist on the same device it performs the swap with a single kernel
exchange-rename — the syscalls are exactly the two opens followed by one
`RENAME_EXCHANGE`, never a userspace two-step rename — after which each
path leads to the other's former inode. -/
theorem atomicSwap_spec (fs : List (String × Inode)) (src dst : String) :
    ((fsLookup fs src = none ∨ fsLookup fs dst = none) →
      (∃ p, (AtomicSwap fs src dst).1 = Except.error (Err.notFound p)) ∧
      (AtomicSwap fs src dst).2.1 = fs ∧
      (∀ a b, SysOp.renameExchange a b ∉ (AtomicSwap fs src dst).2.2) ∧
      (∀ a b, SysOp.rename a b ∉ (AtomicSwap fs src dst).2.2)) ∧
    (∀ ia ib, fsLookup fs src = some ia → fsLookup fs dst = some ib → ia.dev = ib.dev →
      (AtomicSwap fs src dst).1 = Except.ok () ∧
      (AtomicSwap fs src dst).2.2 =
        [SysOp.openPath src, SysOp.openPath dst, SysOp.renameExchange src dst] ∧
      fsLookup (AtomicSwap fs src dst).2.1 src = some ib ∧
      fsLookup (AtomicSwap fs src dst).2.1 dst = some ia) := by
  constructor
  · intro h
    cases hs : fsLookup fs src with
    | none => simp [AtomicSwap, hs]
    | some ia =>
      cases hd : fsLookup fs dst with
      | none => simp [AtomicSwap, hs, hd]
      | some ib =>
        rcases h with h | h
        · rw [hs] at h; cases h
        · rw [hd] at h; cases h
  · intro ia ib hs hd hdev
    simp [AtomicSwap, hs, hd, hdev, fsLookup_fsExchange_left fs src dst ia ib hs,
      fsLookup_fsExchange_right fs src dst ia ib hs hd]

/-- A two-entry filesystem on one device: the staged future partition
before the stage-6 commit. -/
def fsW : List (String × Inode) :=
  [("/part-future/.system/", ⟨7, 100⟩), ("/part-future/.system.new/", ⟨7, 200⟩)]

theorem atomicSwap_spec_witness :
    ((∃ p, (AtomicSwap fsW "/part-future/abimage.abr" "/part-future/.system/").1 =
        Except.error (Err.notFound p)) ∧
      (AtomicSwap fsW "/part-future/abimage.abr" "/part-future/.system/").2.1 = fsW ∧
      (∀ a b, SysOp.renameExchange a b ∉
        (AtomicSwap fsW "/part-future/abimage.abr" "/part-future/.system/").2.2) ∧
      (∀ a b, SysOp.rename a b ∉
        (AtomicSwap fsW "/part-future/abimage.abr" "/part-future/.system/").2.2)) ∧
    ((AtomicSwap fsW "/part-future/.system/" "/part-future/.system.new/").1 = Except.ok () ∧
      (AtomicSwap fsW "/part-future/.system/" "/part-future/.system.new/").2.2 =
        [SysOp.openPath "/part-future/.system/", SysOp.openPath "/part-future/.system.new/",
          SysOp.renameExchange "/part-future/.system/" "/part-future/.system.new/"] ∧
      fsLookup (AtomicSwap fsW "/part-future/.system/" "/part-future/.system.new/").2.1
        "/part-future/.system/" = some ⟨7, 200⟩ ∧
      fsLookup (AtomicSwap fsW "/part-future/.system/" "/part-future/.system.new/").2.1
        "/part-future/.system.new/" = some ⟨7, 100⟩) :=
  ⟨(atomicSwap_spec fsW "/part-future/abimage.abr" "/part-future/.system/").1
      (Or.inl (by decide)),
    (atomicSwap_spec fsW "/part-future/.system/" "/part-future/.system.new/").2
      ⟨7, 100⟩ ⟨7, 200⟩ (by decide) (by decide) rfl⟩

theorem addEffect_cfc (st : Sys) (a : Effect) :
    (addEffect st a).containerFileContent = st.containerFileContent := rfl

theorem executeCmds_cfc (env : Env) (c : Chroot) (cmds : List String) :
    ∀ st : Sys, ((Chroot.ExecuteCmds env c cmds st).2).containerFileContent =
      st.containerFileContent := by
  induction cmds with
  | nil => intro st; rfl
  | cons cmd rest ih =>
    intro st
    simp only [Chroot.ExecuteCmds, Chroot.Execute]
    cases env.chrootExecErr c.root cmd with
    | some e => rfl
    | none => exact ih _

theorem syncEtcLoop_cfc (env : Env) (p : String) (files : List String) :
    ∀ st : Sys, ((syncEtcLoop env p files st).2).containerFileContent =
      st.containerFileContent := by
  induction files with
  | nil => intro st; rfl
  | cons file rest ih =>
    intro st
    simp only [syncEtcLoop]
    cases env.mergeDiffErr ("/var/lib/abroot/etc/" ++ file) (p ++ "/" ++ file) with
    | some e => rfl
    | none => exact ih _

theorem syncEtc_cfc (env : Env) (p : String) (st : Sys) :
    ((SyncEtc env p st).2).containerFileContent = st.containerFileContent :=
  syncEtcLoop_cfc env p etcFiles st

theorem upgradeStage8on_cfc (env : Env) (pf : ABRootPartition) (pb : Partition) (st : Sys) :
    ((upgradeStage8on env pf pb st).2).containerFileContent = st.containerFileContent := by
  unfold upgradeStage8on
  cases hse : SyncEtc env (pf.partition.mountPoint ++ "/.system/etc/") st with
  | mk r s2 =>
    have h1 := congrArg (fun q => q.2.containerFileContent) hse
    simp only [] at h1
    rw [syncEtc_cfc] at h1
    cases r with
    | some e => exact h1.symm
    | none =>
      cases env.mkdirErr with
      | some e => exact h1.symm
      | none =>
        cases env.mountBootErr with
        | some e => exact h1.symm
        | none =>
          cases env.swap ("/tmp/" ++ env.tmpUuid ++ "/grub.cfg")
              ("/tmp/" ++ env.tmpUuid ++ "/grub.cfg.future") with
          | some e => exact h1.symm
          | none => exact h1.symm

theorem upgradeStage7exec_cfc (env : Env) (pf : ABRootPartition) (pb : Partition)
    (c : Chroot) (st : Sys) :
    ((upgradeStage7exec env pf pb c st).2).containerFileContent = st.containerFileContent := by
  unfold upgradeStage7exec
  cases hec : Chroot.ExecuteCmds env c ["grub-mkconfig -o /boot/grub/grub.cfg", "exit"] st with
  | mk r s2 =>
    have h1 := congrArg (fun q => q.2.containerFileContent) hec
    simp only [] at h1
    rw [executeCmds_cfc] at h1
    cases r with
    | some e => exact h1.symm
    | none => rw [upgradeStage8on_cfc]; exact h1.symm

theorem upgradeStage4on_cfc (env : Env) (pf : ABRootPartition) (pb : Partition)
    (n c d : String) (st : Sys) :
    ((upgradeStage4on env pf pb n c d st).2).containerFileContent =
      st.containerFileContent := by
  unfold upgradeStage4on
  cases env.genRootfsErr with
  | some e => rfl
  | none =>
  cases env.abimageWriteErr with
  | some e => rfl
  | none =>
  cases env.swap (pf.partition.mountPoint ++ "/.system/")
      (pf.partition.mountPoint ++ "/.system.new/") with
  | some e => rfl
  | none =>
  cases env.swap (pf.partition.mountPoint ++ "/abimage.abr")
      (pf.partition.mountPoint ++ "/abimage-new.abr") with
  | some e => rfl
  | none =>
  cases generateGrubRecipe env.bootKernels env.grubMkdirErr env.grubWriteErr
      (pf.partition.mountPoint ++ "/.system/") pf.partition.uuid pf.identifiedAs with
  | error e => rfl
  | ok recipe =>
  cases env.newChrootErr with
  | some e => rfl
  | none =>
  rw [upgradeStage7exec_cfc]
  simp [addEffect, AddToCleanUpQueue, ReservedMounts]

/-- C7: whenever the registry digest equals the present descriptor's
digest, `Upgrade` fails with the no-update error at stage 0 and performs
no filesystem effect — nothing is mounted, nothing is written, the trace
is unchanged (the only state change is the queue reset done at entry) —
and re-running has the identical effect. -/
theorem upgrade_noUpdate (env : Env) (st : Sys)
    (h : env.registryDigest = env.curDigest) :
    Upgrade env st = (some Err.noUpdate, { st with queue := [] }) ∧
    (Upgrade env st).2.trace = st.trace ∧
    Upgrade env ((Upgrade env st).2) = Upgrade env st := by
  have hc : CheckUpdate env = false := by simp [CheckUpdate, h]
  have h1 : Upgrade env st = (some Err.noUpdate, { st with queue := [] }) := by
    simp [Upgrade, ResetQueue, hc]
  have h2 : Upgrade env { st with queue := ([] : List QueuedFunction) } =
      (some Err.noUpdate, { st with queue := ([] : List QueuedFunction) }) := by
    simp [Upgrade, ResetQueue, hc]
  refine ⟨h1, by rw [h1], ?_⟩
  rw [h1]
  exact h2

/-- An environment whose registry digest equals the present one. -/
def envSame : Env := { env0 with registryDigest := "sha256:aaa" }

theorem upgrade_noUpdate_witness :
    Upgrade envSame stTwo = (some Err.noUpdate, { stTwo with queue := [] }) ∧
    (Upgrade envSame stTwo).2.trace = stTwo.trace ∧
    Upgrade envSame ((Upgrade envSame stTwo).2) = Upgrade envSame stTwo :=
  upgrade_noUpdate envSame stTwo (by decide)

/-- C9: when stage 3 is reached (there is an update, the partitions
resolve, the future partition mounts, and the image pull succeeds) and the
package manager's final command is the empty string, `Upgrade` substitutes
the literal command `true` and the recipe body built for the composed
image is exactly the single line `RUN true` — in general the body is
`RUN <finalCmd>`. -/
theorem upgrade_run_true (env : Env) (st : Sys) (pf : ABRootPartition) (pb : Partition)
    (d : String) (hu : env.registryDigest ≠ env.curDigest)
    (hf : env.getFuture = Except.ok pf) (hb : env.getBoot = Except.ok pb)
    (hm : env.mountFutureErr = none) (hp : env.pull = Except.ok d)
    (hc : env.finalCmd = "") :
    ((Upgrade env st).2).containerFileContent = some "RUN true" := by
  have hcu : CheckUpdate env = true := by simp [CheckUpdate, hu]
  simp only [Upgrade, hcu, hf, hb, hm, hp, hc, Bool.not_true, Bool.false_eq_true,
    if_false, ResetQueue]
  rw [upgradeStage4on_cfc]
  rfl

theorem upgrade_run_true_witness :
    ((Upgrade env0 sys0).2).containerFileContent = some "RUN true" :=
  upgrade_run_true env0 sys0 ⟨⟨"/dev/vda3", "uuid-future", ""⟩, "b"⟩
    ⟨"/dev/vda1", "uuid-boot", ""⟩ "sha256:bbb" (by decide) rfl rfl rfl rfl rfl

/-- Environment in which everything succeeds except the second stage-6
exchange (`abimage.abr` ↔ `abimage-new.abr`). -/
def envSwap2Fails : Env :=
  { env0 with swap := fun _ b =>
      if b = "/part-future//abimage-new.abr" then some (Err.ioErr "no such file or directory")
      else none }

/-- C2: counterexample.  The claim says that when the `.system` exchange
succeeds and the descriptor exchange fails, `Upgrade` returns the
`DescriptorMismatch` error kind.  In the environment where only the second
exchange fails, `Upgrade` returns the underlying swap error itself — not
`DescriptorMismatch`, a kind the code never constructs — while the
performed `.system` exchange is in the trace. -/
theorem upgrade_no_descriptorMismatch :
    (Upgrade envSwap2Fails sys0).1 = some (Err.ioErr "no such file or directory") ∧
    (Upgrade envSwap2Fails sys0).1 ≠ some Err.descriptorMismatch ∧
    Effect.exchange "/part-future//.system/" "/part-future//.system.new/" ∈
      (Upgrade envSwap2Fails sys0).2.trace := by
  decide

/-- C2 (amended): `Upgrade` performs the two stage-6 atomic exchanges in
order — first `.system/` with `.system.new/`, then `abimage.abr` with
`abimage-new.abr` — and whenever the first exchange succeeds and the
second fails with error `e`, it returns `e` itself (the code defines no
distinct DescriptorMismatch kind) while leaving the rootfs exchange in
place: the final trace ends with the performed `.system` exchange and no
later exchange reverts it. -/
theorem upgrade_stage6_order (env : Env) (st : Sys) (pf : ABRootPartition)
    (pb : Partition) (d : String) (e : Err)
    (hu : env.registryDigest ≠ env.curDigest)
    (hf : env.getFuture = Except.ok pf) (hb : env.getBoot = Except.ok pb)
    (hm : env.mountFutureErr = none) (hp : env.pull = Except.ok d)
    (hg : env.genRootfsErr = none) (hw : env.abimageWriteErr = none)
    (hs1 : env.swap "/part-future//.system/" "/part-future//.system.new/" = none)
    (hs2 : env.swap "/part-future//abimage.abr" "/part-future//abimage-new.abr" = some e) :
    Upgrade env st =
      (some e,
        { queue := [⟨"umountFuture", CleanupVal.part
            { pf with partition := { pf.partition with mountPoint := "/part-future/" } }⟩]
          trace := st.trace ++
            [Effect.mountPart pf.partition.device "/part-future/",
              Effect.pullImage (env.cnfRegistry ++ "/" ++ env.cnfName ++ ":" ++ env.cnfTag),
              Effect.newContainerFile (env.cnfRegistry ++ "/" ++ env.cnfName ++ ":" ++ env.cnfTag)
                ("RUN " ++ (if env.finalCmd = "" then "true" else env.finalCmd)),
              Effect.genRootfs (env.cnfRegistry ++ "/" ++ env.cnfName ++ ":" ++ env.cnfTag)
                ("RUN " ++ (if env.finalCmd = "" then "true" else env.finalCmd))
                "/part-future/" "/part-future//.system.new/",
              Effect.writeImage "/part-future/" "new" d
                (env.cnfRegistry ++ "/" ++ env.cnfName ++ ":" ++ env.cnfTag),
              Effect.exchange "/part-future//.system/" "/part-future//.system.new/"]
          containerFileContent :=
            some ("RUN " ++ (if env.finalCmd = "" then "true" else env.finalCmd)) }) := by
  have hcu : CheckUpdate env = true := by simp [CheckUpdate, hu]
  simp only [Upgrade, upgradeStage4on, hcu, hf, hb, hm, hp, hg, hw, Bool.not_true,
    Bool.false_eq_true, if_false, ResetQueue, addEffect, AddToCleanUpQueue]
  simp [hs1, hs2]

theorem upgrade_stage6_order_witness :
    Upgrade envSwap2Fails sys0 =
      (some (Err.ioErr "no such file or directory"),
        { queue := [⟨"umountFuture", CleanupVal.part
            { (⟨⟨"/dev/vda3", "uuid-future", ""⟩, "b"⟩ : ABRootPartition) with
              partition := { (⟨"/dev/vda3", "uuid-future", ""⟩ : Partition) with
                mountPoint := "/part-future/" } }⟩]
          trace := sys0.trace ++
            [Effect.mountPart (⟨⟨"/dev/vda3", "uuid-future", ""⟩, "b"⟩ :
                ABRootPartition).partition.device "/part-future/",
              Effect.pullImage (envSwap2Fails.cnfRegistry ++ "/" ++ envSwap2Fails.cnfName ++
                ":" ++ envSwap2Fails.cnfTag),
              Effect.newContainerFile (envSwap2Fails.cnfRegistry ++ "/" ++
                envSwap2Fails.cnfName ++ ":" ++ envSwap2Fails.cnfTag)
                ("RUN " ++ (if envSwap2Fails.finalCmd = "" then "true"
                  else envSwap2Fails.finalCmd)),
              Effect.genRootfs (envSwap2Fails.cnfRegistry ++ "/" ++ envSwap2Fails.cnfName ++
                ":" ++ envSwap2Fails.cnfTag)
                ("RUN " ++ (if envSwap2Fails.finalCmd = "" then "true"
                  else envSwap2Fails.finalCmd))
                "/part-future/" "/part-future//.system.new/",
              Effect.writeImage "/part-future/" "new" "sha256:bbb"
                (envSwap2Fails.cnfRegistry ++ "/" ++ envSwap2Fails.cnfName ++ ":" ++
                  envSwap2Fails.cnfTag),
              Effect.exchange "/part-future//.system/" "/part-future//.system.new/"]
          containerFileContent :=
            some ("RUN " ++ (if envSwap2Fails.finalCmd = "" then "true"
              else envSwap2Fails.finalCmd)) }) :=
  upgrade_stage6_order envSwap2Fails sys0 ⟨⟨"/dev/vda3", "uuid-future", ""⟩, "b"⟩
    ⟨"/dev/vda1", "uuid-boot", ""⟩ "sha256:bbb" (Err.ioErr "no such file or directory")
    (by decide) rfl rfl rfl rfl rfl rfl (by decide) (by decide)

/-- Does this effect release a resource (a partition unmount or a chroot
`umount`)?  Used to observe that `Upgrade` released nothing. -/
def isReleaseEffect : Effect → Bool
  | Effect.unmountPart _ => true
  | Effect.umountCmd _ => true
  | _ => false

/-- C1: the code violates the claim.  In the all-success environment the
whole ten-stage pipeline runs to completion, yet `Upgrade` returns with
the cleanup queue still holding the `umountFuture` and `closeChroot`
entries registered in stages 1 and 7, and the trace contains no release
effect at all: `Upgrade` never calls `RunCleanUpQueue`, so neither the
mount nor the chroot session has been released on return (the same holds
on every failure path after stage 1). -/
theorem upgrade_never_drains :
    (Upgrade env0 sys0).1 = none ∧
    (Upgrade env0 sys0).2.queue ≠ [] ∧
    (Upgrade env0 sys0).2.queue.map QueuedFunction.name = ["umountFuture", "closeChroot"] ∧
    (Upgrade env0 sys0).2.trace.all (fun a => ! isReleaseEffect a) = true := by
  decide
